import Mathlib

/-!
Verification of the resilient task-execution engine in `src/modules/promises.js`
(`make_retryable`, `throttle_and_retry`, `promise_timeout`).

Embedding conventions:
* JavaScript numbers are embedded as exact rationals (`ℚ`); machine floating
  point is not modelled.
* A task is modelled by what each of its invocations does (0-indexed): the
  returned promise fulfils, the returned promise rejects, the function throws
  synchronously, or it returns a plain non-thenable value.
* `Math.random()` is modelled as an explicit stream `rand : ℕ → ℚ` of draws,
  one per computed cooldown; a draw is well formed when it lies in `[0, 1)`.
* The injected delay primitive (`wait` from `time.js`) and the logger are
  modelled observationally: a run produces the list of events (invocations,
  waits with their millisecond argument, log messages) next to its outcome.
-/

/-- Behaviour of a single invocation of a caller-supplied task function. -/
inductive TaskStep (α ε : Type) where
  /-- The invocation returns a promise that fulfils with `v`. -/
  | resolves (v : α)
  /-- The invocation returns a promise that rejects with `e`. -/
  | rejects (e : ε)
  /-- The invocation throws `e` synchronously. -/
  | throws (e : ε)
  /-- The invocation returns a plain value with no `catch` method. -/
  | nonthenable (v : α)

/-- A task: what its `n`-th invocation (0-indexed) does. -/
def JsTask (α ε : Type) : Type := ℕ → TaskStep α ε

/-- A settled promise: fulfilled with a value or rejected with a reason. -/
inductive Outcome (α ε : Type) where
  | success (v : α)
  | failure (e : ε)
  deriving DecidableEq

/-- Observable events of a retryable run: task invocations (tagged with the
1-based attempt number), calls to the injected logger, and calls to the
injected delay primitive with the computed cooldown in milliseconds. -/
inductive RetryEvent where
  | invoked (attempt : ℕ)
  | logged (message : String)
  | waited (cooldown_ms : ℚ)
  deriving DecidableEq

/-- Test used to count task invocations in an event trace. -/
def RetryEvent.is_invoked : RetryEvent → Bool
  | .invoked _ => true
  | _ => false

/-- Number of task invocations recorded in a trace. -/
def count_invocations (events : List RetryEvent) : ℕ :=
  (events.filter RetryEvent.is_invoked).length

/-- The cooldowns passed to the delay primitive, in trace order. -/
def waits (events : List RetryEvent) : List ℚ :=
  events.filterMap fun e =>
    match e with
    | .waited c => some c
    | _ => none

/-- Cooldown computation of `make_retryable` (src/modules/promises.js, the
three lines computing `entropy`, `cooldown_in_ms` and `cooldown`):
`entropy = !cooldown_entropy ? 0 : .1 + Math.random()`,
`cooldown_in_ms = (cooldown_in_s + entropy) * 1000`,
`cooldown = cooldown_in_ms + cooldown_in_ms * (retry_counter - 1)`. -/
def compute_cooldown (cooldown_in_s : ℚ) (cooldown_entropy : Bool)
    (random : ℚ) (retry_counter : ℕ) : ℚ :=
  let entropy : ℚ := if !cooldown_entropy then 0 else 1/10 + random
  let cooldown_in_ms := (cooldown_in_s + entropy) * 1000
  cooldown_in_ms + cooldown_in_ms * ((retry_counter : ℚ) - 1)

/-- Modelled from the spec: the retry driver supplied by the `promise-retry`
dependency, which is absent from the sources (only its call site in
`make_retryable` is present).  Following the spec's retry state machine
(`Attempting → (Success | AwaitingCooldown → Attempting) → ExhaustedFailure`,
attempt count as loop state) and the documented `promise-retry` interface, the
driver invokes the wrapped body with a 1-based attempt counter
(`retry_counter`) and re-invokes it whenever the body signals a retry.
The per-attempt body is translated from `make_retryable` in
src/modules/promises.js: the task's result is handled through
`.catch?.( async e => ... )` — so a fulfilled promise resolves the attempt, a
synchronous throw escapes the handler and rejects the whole run at once, and a
non-thenable return resolves the run with `undefined` (modelled as `none`) —
and the failure handler throws the original reason out once
`retry_counter >= retry_times`, otherwise it logs, waits for the computed
cooldown, logs again, and retries. -/
def retrier_run (retry_times : ℕ) (cooldown_in_s : ℚ) (cooldown_entropy : Bool)
    (rand : ℕ → ℚ) (task : JsTask α ε) (retry_counter : ℕ) :
    List RetryEvent × Outcome (Option α) ε :=
  match task (retry_counter - 1) with
  | .resolves v => ([.invoked retry_counter], .success (some v))
  | .nonthenable _ => ([.invoked retry_counter], .success none)
  | .throws e => ([.invoked retry_counter], .failure e)
  | .rejects e =>
    if h : retry_times ≤ retry_counter then
      ([.invoked retry_counter, .logged "Retry failed definitively"], .failure e)
    else
      let cooldown :=
        compute_cooldown cooldown_in_s cooldown_entropy (rand (retry_counter - 1)) retry_counter
      let rest :=
        retrier_run retry_times cooldown_in_s cooldown_entropy rand task (retry_counter + 1)
      (.invoked retry_counter :: .logged "Retry failed, pausing..." :: .waited cooldown ::
        .logged "Cooldown complete, continuing..." :: rest.1, rest.2)
termination_by retry_times - retry_counter
decreasing_by omega

/-- Closed form of the event trace of a run whose every attempt rejects,
starting at attempt `a` with `n` retries still allowed. -/
def fail_trace (cooldown_in_s : ℚ) (cooldown_entropy : Bool) (rand : ℕ → ℚ) :
    ℕ → ℕ → List RetryEvent
  | a, 0 => [.invoked a, .logged "Retry failed definitively"]
  | a, n + 1 =>
    .invoked a :: .logged "Retry failed, pausing..." ::
      .waited (compute_cooldown cooldown_in_s cooldown_entropy (rand (a - 1)) a) ::
      .logged "Cooldown complete, continuing..." :: fail_trace cooldown_in_s cooldown_entropy rand (a + 1) n

/-- A run whose every invocation rejects performs attempts `a, a+1, …` until
the guard `retry_counter >= retry_times` stops it, producing the closed-form
trace and the rejection reason of the final invocation. -/
theorem retrier_run_rejects_eq (s : ℚ) (j : Bool) (rand : ℕ → ℚ) (err : ℕ → ε) :
    ∀ (n a r : ℕ), 1 ≤ a → r - a = n →
      retrier_run (α := α) r s j rand (fun k => TaskStep.rejects (err k)) a =
        (fail_trace s j rand a n, .failure (err (a - 1 + n))) := by
  intro n
  induction n with
  | zero =>
    intro a r ha hr
    rw [retrier_run]
    simp only [fail_trace]
    rw [dif_pos (by omega)]
    simp
  | succ n ih =>
    intro a r ha hr
    rw [retrier_run]
    simp only [fail_trace]
    rw [dif_neg (by omega), ih (a + 1) r (by omega) (by omega)]
    simp
    congr 1
    omega

/-- The closed-form rejecting trace records exactly `n + 1` task invocations. -/
theorem count_invocations_fail_trace (s : ℚ) (j : Bool) (rand : ℕ → ℚ) :
    ∀ (n a : ℕ), count_invocations (fail_trace s j rand a n) = n + 1 := by
  intro n
  induction n with
  | zero => intro a; rfl
  | succ n ih =>
    intro a
    simp only [fail_trace, count_invocations, List.filter] at ih ⊢
    simp [RetryEvent.is_invoked, ih (a + 1)]

/-- The cooldowns handed to the delay primitive by a rejecting run starting at
attempt `a` with `n` retries still allowed, in order. -/
def cooldown_from (cooldown_in_s : ℚ) (cooldown_entropy : Bool) (rand : ℕ → ℚ) :
    ℕ → ℕ → List ℚ
  | _, 0 => []
  | a, n + 1 =>
    compute_cooldown cooldown_in_s cooldown_entropy (rand (a - 1)) a ::
      cooldown_from cooldown_in_s cooldown_entropy rand (a + 1) n

/-- The waits of the closed-form rejecting trace are `cooldown_from`. -/
theorem waits_fail_trace (s : ℚ) (j : Bool) (rand : ℕ → ℚ) :
    ∀ (n a : ℕ), waits (fail_trace s j rand a n) = cooldown_from s j rand a n := by
  intro n
  induction n with
  | zero => intro a; rfl
  | succ n ih =>
    intro a
    simp only [fail_trace, cooldown_from, waits, List.filterMap] at ih ⊢
    simp [ih (a + 1)]

/-- The `k`-th cooldown (0-indexed) of `cooldown_from` belongs to attempt `a + k`. -/
theorem cooldown_from_getElem (s : ℚ) (j : Bool) (rand : ℕ → ℚ) :
    ∀ (n a k : ℕ), 1 ≤ a → k < n →
      (cooldown_from s j rand a n)[k]? =
        some (compute_cooldown s j (rand (a - 1 + k)) (a + k)) := by
  intro n
  induction n with
  | zero => intro a k ha hk; omega
  | succ n ih =>
    intro a k ha hk
    match k with
    | 0 => simp [cooldown_from]
    | k + 1 =>
      simp only [cooldown_from, List.getElem?_cons_succ]
      rw [ih (a + 1) k (by omega) (by omega)]
      have h1 : a + 1 - 1 + k = a - 1 + (k + 1) := by omega
      have h2 : a + 1 + k = a + (k + 1) := by omega
      rw [h1, h2]

/-- A JavaScript call error observable at the public interface. -/
inductive JsCallError where
  /-- `TypeError` raised by destructuring an `undefined` options argument. -/
  | type_error
  /-- A thrown `Error` carrying a message. -/
  | error (message : String)
  deriving DecidableEq

/-- The options record accepted by `make_retryable`
(src/modules/promises.js): each field may be present or absent. -/
structure RetryArgs where
  retry_times : Option ℕ := none
  cooldown_in_s : Option ℚ := none
  cooldown_entropy : Option Bool := none

/-- The retry options after destructuring filled in the per-field defaults
`retry_times = 5`, `cooldown_in_s = 10`, `cooldown_entropy = true`. -/
structure RetryConfig where
  retry_times : ℕ
  cooldown_in_s : ℚ
  cooldown_entropy : Bool
  deriving DecidableEq

/-- Per-field defaulting performed by the destructuring pattern of
`make_retryable`: `{ retry_times = 5, cooldown_in_s = 10, cooldown_entropy = true }`. -/
def resolve_retry_args (a : RetryArgs) : RetryConfig :=
  ⟨a.retry_times.getD 5, a.cooldown_in_s.getD 10, a.cooldown_entropy.getD true⟩

/-- One call of the retryable function produced by `make_retryable`: the
retry driver is entered at attempt number 1. -/
def retryable_call (cfg : RetryConfig) (rand : ℕ → ℚ) (task : JsTask α ε) :
    List RetryEvent × Outcome (Option α) ε :=
  retrier_run cfg.retry_times cfg.cooldown_in_s cfg.cooldown_entropy rand task 1

/-- `make_retryable(async_function, options)` from src/modules/promises.js.
The options record is destructured without a whole-record default, so an
omitted (`undefined`) second argument raises a `TypeError` before anything
else happens; otherwise the per-field defaults are applied and the retryable
function is returned. -/
def make_retryable (task : JsTask α ε) (opts : Option RetryArgs) :
    Except JsCallError ((ℕ → ℚ) → List RetryEvent × Outcome (Option α) ε) :=
  match opts with
  | none => .error .type_error
  | some a => .ok (fun rand => retryable_call (resolve_retry_args a) rand task)

/-- An element of the value passed as `async_function_array`: either a
function (carrying the task it performs when invoked) or a non-function. -/
inductive JsElem (α ε : Type) where
  | func (t : JsTask α ε)
  | nonfunc

/-- `typeof f === 'function'` for an array element. -/
def JsElem.is_function : JsElem α ε → Bool
  | .func _ => true
  | .nonfunc => false

/-- The first argument of `throttle_and_retry`: omitted/`undefined` (which
triggers the `= []` default parameter), an array, or a defined non-array. -/
inductive JsArg (α ε : Type) where
  | undef
  | array (xs : List (JsElem α ε))
  | nonarray

/-- The `async_function_array = []` default parameter: `undefined` is replaced
by the empty array, every other value is passed through. -/
def array_or_default : JsArg α ε → JsArg α ε
  | .undef => .array []
  | x => x

/-- The guard `Array.isArray( x ) && x.every( f => typeof f === 'function' )`
of `throttle_and_retry`, fused with extraction of the tasks: `none` when the
check fails, `some` the listed tasks when it passes. -/
def elems_to_tasks : List (JsElem α ε) → Option (List (JsTask α ε))
  | [] => some []
  | .func t :: xs => (elems_to_tasks xs).map (fun ts => t :: ts)
  | .nonfunc :: _ => none

/-- The array check applied to the (defaulted) first argument. -/
def as_task_array : JsArg α ε → Option (List (JsTask α ε))
  | .array xs => elems_to_tasks xs
  | _ => none

/-- The options record accepted by `throttle_and_retry`
(src/modules/promises.js): each field may be present or absent. -/
structure ThrottleArgs where
  max_parallel : Option ℕ := none
  retry_times : Option ℕ := none
  cooldown_in_s : Option ℚ := none
  cooldown_entropy : Option Bool := none
  fail_fast : Option Bool := none

/-- The throttle options after destructuring filled in the per-field defaults
`max_parallel = 2`, `retry_times = 2`, `cooldown_in_s = 5`,
`cooldown_entropy = false`, `fail_fast = true`. -/
structure ThrottleConfig where
  max_parallel : ℕ
  retry_times : ℕ
  cooldown_in_s : ℚ
  cooldown_entropy : Bool
  fail_fast : Bool
  deriving DecidableEq

/-- Per-field defaulting performed by the destructuring pattern of
`throttle_and_retry`:
`{ max_parallel = 2, retry_times = 2, cooldown_in_s = 5, cooldown_entropy = false, logger, fail_fast = true }`. -/
def resolve_throttle_args (a : ThrottleArgs) : ThrottleConfig :=
  ⟨a.max_parallel.getD 2, a.retry_times.getD 2, a.cooldown_in_s.getD 5,
    a.cooldown_entropy.getD false, a.fail_fast.getD true⟩

/-- The retry options `throttle_and_retry` hands to `make_retryable` for every
task of the batch: `{ retry_times, cooldown_in_s, logger, cooldown_entropy }`
with its own resolved values. -/
def throttle_embedded_retry (a : ThrottleArgs) : RetryConfig :=
  ⟨(resolve_throttle_args a).retry_times, (resolve_throttle_args a).cooldown_in_s,
    (resolve_throttle_args a).cooldown_entropy⟩

/-- An indexed map, used to give every task of a batch its own stream of
`Math.random()` draws. -/
def map_with_index (f : ℕ → γ → β) : ℕ → List γ → List β
  | _, [] => []
  | i, x :: xs => f i x :: map_with_index f (i + 1) xs

/-- The per-task outcomes of the batch: task `i` wrapped through
`make_retryable` with the throttler's embedded retry options and run to
completion on its own random stream `rand i`. -/
def wrapped_outcomes (a : ThrottleArgs) (rand : ℕ → ℕ → ℚ) (tasks : List (JsTask α ε)) :
    List (Outcome (Option α) ε) :=
  map_with_index (fun i task => (retryable_call (throttle_embedded_retry a) (rand i) task).2) 0 tasks

/-- Modelled from the spec: the fail-fast mode of the batch executor (the
`promise-parallel-throttle` dependency, absent from the sources).  Tasks are
admitted in input order; the first task whose (already retried) outcome is a
failure terminates the batch with exactly that failure and no later task is
admitted.  Returns the number of tasks admitted next to the batch outcome. -/
def throttle_all_ff : List (Outcome β ε) → ℕ × Outcome (List (Outcome β ε)) ε
  | [] => (0, .success [])
  | .failure e :: _ => (1, .failure e)
  | .success v :: rest =>
    let r := throttle_all_ff rest
    (r.1 + 1,
      match r.2 with
      | .success l => .success (.success v :: l)
      | .failure e => .failure e)

/-- Modelled from the spec: `Throttle.all` of the `promise-parallel-throttle`
dependency (absent from the sources), for tasks whose outcomes are already
determined by the Retrier model.  With `fail_fast` it stops at the first
failed task; without it every task runs and the batch resolves with the
positionally aligned list of per-task outcomes (admission order is input
order; concurrent completion is modelled sequentially, which is exact for
`max_parallel = 1` and outcome-equivalent here because modelled task outcomes
do not depend on scheduling).  Returns the number of tasks admitted next to
the batch outcome. -/
def throttle_all (fail_fast : Bool) (outcomes : List (Outcome β ε)) :
    ℕ × Outcome (List (Outcome β ε)) ε :=
  if fail_fast then throttle_all_ff outcomes else (outcomes.length, .success outcomes)

/-- `throttle_and_retry(async_function_array, options)` from
src/modules/promises.js.  An omitted options record raises a `TypeError` from
destructuring; then the (defaulted) first argument must be an array of
functions or the call throws
`Error('async_function_array must be an array of functions')` before any task
is wrapped or started; otherwise every task is wrapped through
`make_retryable` with the embedded retry options and the batch is handed to
the throttled executor. -/
def throttle_and_retry (async_function_array : JsArg α ε) (opts : Option ThrottleArgs)
    (rand : ℕ → ℕ → ℚ) :
    Except JsCallError (ℕ × Outcome (List (Outcome (Option α) ε)) ε) :=
  match opts with
  | none => .error .type_error
  | some a =>
    match as_task_array (array_or_default async_function_array) with
    | none => .error (.error "async_function_array must be an array of functions")
    | some tasks =>
      .ok (throttle_all (resolve_throttle_args a).fail_fast (wrapped_outcomes a rand tasks))

/-- A JavaScript value, as far as the Deadline Guard needs to distinguish
values: `undefined`, a string, or a number. -/
inductive JsValue where
  | undef
  | str (s : String)
  | num (q : ℚ)
  deriving DecidableEq

/-- `promise_timeout(promise, timeout_in_ms, throw_on_timeout)` from
src/modules/promises.js, with the race abstracted by `timer_first` (whether
the `setTimeout` timer settles before the operation).  If the timer wins:
`throw_on_timeout ? rej : () => res( 'timed out' )` — `setTimeout` invokes
`rej` with no argument, so the guard rejects with `undefined`; otherwise it
resolves with the string `'timed out'`.  If the operation wins, its outcome
propagates unchanged.  `timeout_in_ms` only determines when the timer fires,
which is abstracted into `timer_first`, so it is unused here. -/
def promise_timeout (op : Outcome JsValue JsValue) (timer_first : Bool)
    (timeout_in_ms : ℚ) (throw_on_timeout : Bool) : Outcome JsValue JsValue :=
  let _ := timeout_in_ms
  if timer_first then
    if throw_on_timeout then .failure .undef else .success (.str "timed out")
  else op

/-- The default values of `promise_timeout`'s optional arguments:
`timeout_in_ms = 60_000`, `throw_on_timeout = true`. -/
def resolve_timeout_args (timeout_in_ms : Option ℚ) (throw_on_timeout : Option Bool) :
    ℚ × Bool :=
  (timeout_in_ms.getD 60000, throw_on_timeout.getD true)

/-- Calling `promise_timeout` with possibly-omitted optional arguments: the
per-argument defaults are applied, nothing can fail at the interface. -/
def promise_timeout_call (op : Outcome JsValue JsValue) (timer_first : Bool)
    (timeout_in_ms : Option ℚ) (throw_on_timeout : Option Bool) : Outcome JsValue JsValue :=
  promise_timeout op timer_first (resolve_timeout_args timeout_in_ms throw_on_timeout).1
    (resolve_timeout_args timeout_in_ms throw_on_timeout).2

/-- Index and reason of the first failed outcome of a batch, if any. -/
def first_failure : List (Outcome β ε) → Option (ℕ × ε)
  | [] => none
  | .failure e :: _ => some (0, e)
  | .success _ :: rest => (first_failure rest).map (fun p => (p.1 + 1, p.2))

/-- With a first failure at slot `i`, fail-fast admits exactly the tasks up to
and including `i` and the batch fails with that task's reason. -/
theorem throttle_all_ff_failure :
    ∀ (outs : List (Outcome β ε)) (i : ℕ) (e : ε), first_failure outs = some (i, e) →
      throttle_all_ff outs = (i + 1, .failure e) ∧ i < outs.length := by
  intro outs
  induction outs with
  | nil => intro i e h; simp [first_failure] at h
  | cons o rest ih =>
    intro i e h
    match o with
    | .failure e0 =>
      simp only [first_failure, Option.some.injEq, Prod.mk.injEq] at h
      obtain ⟨hi, he⟩ := h
      subst hi
      subst he
      simp [throttle_all_ff]
    | .success v =>
      simp only [first_failure] at h
      cases hfr : first_failure rest with
      | none => rw [hfr] at h; simp at h
      | some p =>
        obtain ⟨i0, e0⟩ := p
        rw [hfr] at h
        simp at h
        obtain ⟨hff, hlt⟩ := ih i0 e0 hfr
        have hi : i0 + 1 = i := h.1
        have he : e0 = e := h.2
        subst he
        constructor
        · rw [← hi]
          simp [throttle_all_ff, hff]
        · simp only [List.length_cons]
          omega

/-- With no failed outcome, fail-fast admits every task and resolves with the
aligned outcome list. -/
theorem throttle_all_ff_none :
    ∀ (outs : List (Outcome β ε)), first_failure outs = none →
      throttle_all_ff outs = (outs.length, .success outs) := by
  intro outs
  induction outs with
  | nil => intro _; rfl
  | cons o rest ih =>
    intro h
    match o with
    | .failure e0 => simp [first_failure] at h
    | .success v =>
      simp only [first_failure] at h
      cases hfr : first_failure rest with
      | some p => rw [hfr] at h; simp at h
      | none => simp [throttle_all_ff, ih hfr]

/-- A resolving fail-fast batch resolves with exactly the aligned outcome
list, one slot per admitted task. -/
theorem throttle_all_ff_success :
    ∀ (outs : List (Outcome β ε)) (n : ℕ) (l : List (Outcome β ε)),
      throttle_all_ff outs = (n, .success l) → l = outs ∧ n = outs.length := by
  intro outs
  induction outs with
  | nil =>
    intro n l h
    have h1 := congrArg Prod.fst h
    have h2 := congrArg Prod.snd h
    simp only [throttle_all_ff] at h1 h2
    simp at h1 h2
    subst h2
    exact ⟨rfl, h1.symm⟩
  | cons o rest ih =>
    intro n l h
    rcases hrest : throttle_all_ff rest with ⟨n', out⟩
    match o with
    | .failure e0 =>
      simp only [throttle_all_ff] at h
      have h2 := congrArg Prod.snd h
      simp at h2
    | .success v =>
      simp only [throttle_all_ff, hrest] at h
      cases out with
      | failure e' =>
        have h2 := congrArg Prod.snd h
        simp at h2
      | success v' =>
        have h1 := congrArg Prod.fst h
        have h2 := congrArg Prod.snd h
        simp at h1 h2
        obtain ⟨hrl, hlen⟩ := ih n' v' hrest
        constructor
        · rw [← h2, hrl]
        · simp only [List.length_cons]
          omega

/-- An array built of function elements passes the check and yields its tasks. -/
theorem elems_to_tasks_map_func (tasks : List (JsTask α ε)) :
    elems_to_tasks (tasks.map JsElem.func) = some tasks := by
  induction tasks with
  | nil => rfl
  | cons t ts ih => simp [elems_to_tasks, ih]

/-- The array check fails exactly when some element is not a function. -/
theorem elems_to_tasks_none_iff (xs : List (JsElem α ε)) :
    elems_to_tasks xs = none ↔ xs.all JsElem.is_function = false := by
  induction xs with
  | nil => simp [elems_to_tasks]
  | cons x rest ih =>
    match x with
    | .func t =>
      simp [elems_to_tasks, JsElem.is_function, ih]
    | .nonfunc => simp [elems_to_tasks, JsElem.is_function]

/-- `map_with_index` preserves length. -/
theorem map_with_index_length (f : ℕ → γ → β) :
    ∀ (l : List γ) (i : ℕ), (map_with_index f i l).length = l.length := by
  intro l
  induction l with
  | nil => intro i; rfl
  | cons x xs ih => intro i; simp [map_with_index, ih (i + 1)]

/-- Entry `k` of `map_with_index` applies `f` to offset `i + k` and entry `k`. -/
theorem map_with_index_getElem (f : ℕ → γ → β) :
    ∀ (l : List γ) (i k : ℕ), (map_with_index f i l)[k]? = (l[k]?).map (f (i + k)) := by
  intro l
  induction l with
  | nil => intro i k; simp [map_with_index]
  | cons x xs ih =>
    intro i k
    match k with
    | 0 => simp [map_with_index]
    | k + 1 =>
      simp only [map_with_index, List.getElem?_cons_succ]
      rw [ih (i + 1) k]
      have h1 : i + 1 + k = i + (k + 1) := by omega
      rw [h1]

/-- C1: the claim asserts that with `retry_times = r` a permanently failing
task is invoked exactly `r + 1` times.  On the code this fails: the guard
`retry_counter >= retry_times` against the driver's 1-based attempt counter
stops after `max(r, 1)` invocations.  Concretely, with `retry_times = 1` the
task is invoked exactly once (the claim demands two invocations), and with
the direct default `retry_times = 5` exactly five times (the claim demands
six).  `retry_times = 0` does give exactly one attempt, as claimed. -/
theorem c1_retry_count_off_by_one :
    count_invocations ((retrier_run (α := Unit) 1 10 true (fun _ => 0)
        (fun _ => TaskStep.rejects "boom") 1).1) = 1
    ∧ count_invocations ((retrier_run (α := Unit) 5 10 true (fun _ => 0)
        (fun _ => TaskStep.rejects "boom") 1).1) = 5
    ∧ count_invocations ((retrier_run (α := Unit) 0 10 true (fun _ => 0)
        (fun _ => TaskStep.rejects "boom") 1).1) = 1 := by
  have h1 : retrier_run (α := Unit) 1 10 true (fun _ => (0 : ℚ))
      (fun _ => TaskStep.rejects "boom") 1
      = (fail_trace 10 true (fun _ => 0) 1 0, .failure "boom") :=
    retrier_run_rejects_eq 10 true (fun _ => 0) (fun _ => "boom") 0 1 1 (by omega) (by omega)
  have h5 : retrier_run (α := Unit) 5 10 true (fun _ => (0 : ℚ))
      (fun _ => TaskStep.rejects "boom") 1
      = (fail_trace 10 true (fun _ => 0) 1 4, .failure "boom") :=
    retrier_run_rejects_eq 10 true (fun _ => 0) (fun _ => "boom") 4 1 5 (by omega) (by omega)
  have h0 : retrier_run (α := Unit) 0 10 true (fun _ => (0 : ℚ))
      (fun _ => TaskStep.rejects "boom") 1
      = (fail_trace 10 true (fun _ => 0) 1 0, .failure "boom") :=
    retrier_run_rejects_eq 10 true (fun _ => 0) (fun _ => "boom") 0 1 0 (by omega) (by omega)
  refine ⟨?_, ?_, ?_⟩
  · rw [h1]; exact count_invocations_fail_trace 10 true (fun _ => 0) 0 1
  · rw [h5]; exact count_invocations_fail_trace 10 true (fun _ => 0) 4 1
  · rw [h0]; exact count_invocations_fail_trace 10 true (fun _ => 0) 0 1

/-- C2: the cooldown computed for the retry with 1-indexed attempt number `a`
and passed to the delay primitive is `(cooldown_in_s + entropy) * 1000 * a`:
with jitter disabled it is exactly `cooldown_in_s * 1000 * a`, with jitter
enabled the entropy is `0.1 + Math.random()`, hence in `[0.1, 1.1)` whenever
the draw is in `[0, 1)`; growth is linear in the attempt number.  The `k`-th
wait (0-indexed) of a permanently failing run is the cooldown of attempt
`k + 1` computed on the `k`-th random draw. -/
theorem c2_cooldown_linear_formula (s rnd : ℚ) (j : Bool) (a : ℕ) (rand : ℕ → ℚ)
    (err : ℕ → ε) (r k : ℕ) :
    (compute_cooldown s false rnd a = s * 1000 * a)
    ∧ (0 ≤ rnd → rnd < 1 →
        ∃ entropy : ℚ, 1/10 ≤ entropy ∧ entropy < 11/10 ∧
          compute_cooldown s true rnd a = (s + entropy) * 1000 * a)
    ∧ (k < r - 1 →
        (waits ((retrier_run (α := α) r s j rand (fun n => TaskStep.rejects (err n)) 1).1))[k]?
          = some (compute_cooldown s j (rand k) (k + 1))) := by
  refine ⟨?_, ?_, ?_⟩
  · simp only [compute_cooldown, Bool.not_false, if_true]
    ring
  · intro h0 h1
    refine ⟨1/10 + rnd, by linarith, by linarith, ?_⟩
    simp only [compute_cooldown, Bool.not_true, if_false]
    push_cast
    ring
  · intro hk
    have hrun : retrier_run (α := α) r s j rand (fun n => TaskStep.rejects (err n)) 1
        = (fail_trace s j rand 1 (r - 1), .failure (err (1 - 1 + (r - 1)))) :=
      retrier_run_rejects_eq s j rand err (r - 1) 1 r (by omega) (by omega)
    rw [hrun]
    show (waits (fail_trace s j rand 1 (r - 1)))[k]? = _
    rw [waits_fail_trace s j rand (r - 1) 1,
      cooldown_from_getElem s j rand (r - 1) 1 k (by omega) (by omega)]
    have e1 : 1 - 1 + k = k := by omega
    have e2 : 1 + k = k + 1 := by omega
    rw [e1, e2]

/-- C2 witness: at `cooldown_in_s = 10`, attempt 2, draw `1/2`, and a run
with `retry_times = 3`, all three parts of the cooldown law hold. -/
theorem c2_cooldown_linear_formula_witness :
    (0 : ℚ) ≤ 1/2 ∧ (1/2 : ℚ) < 1 ∧ (0 : ℕ) < 3 - 1
    ∧ compute_cooldown 10 false (1/2) 2 = 10 * 1000 * 2
    ∧ (∃ entropy : ℚ, 1/10 ≤ entropy ∧ entropy < 11/10 ∧
        compute_cooldown 10 true (1/2) 2 = (10 + entropy) * 1000 * 2)
    ∧ (waits ((retrier_run (α := Unit) 3 10 false (fun _ => 1/2)
        (fun _ => TaskStep.rejects "boom") 1).1))[0]?
        = some (compute_cooldown 10 false ((fun _ : ℕ => (1/2 : ℚ)) 0) 1) := by
  have h := c2_cooldown_linear_formula (α := Unit) 10 (1/2) false 2 (fun _ => 1/2)
    (fun _ => "boom") 3 0
  have h2 := c2_cooldown_linear_formula (α := Unit) 10 (1/2) true 2 (fun _ => 1/2)
    (fun _ => "boom") 3 0
  refine ⟨by norm_num, by norm_num, by norm_num, h.1, ?_, ?_⟩
  · exact h2.2.1 (by norm_num) (by norm_num)
  · exact h.2.2 (by norm_num)

/-- C3 counterexample: the claim asserts that a synchronously throwing task
enters the same retry path as one whose promise rejects.  On the code the
synchronous throw escapes the `.catch?.( ... )` failure handler, so with
`retry_times = 3` the throwing task is invoked once and its error surfaces
immediately, while the rejecting task is invoked three times with two
backoff waits — the two runs differ. -/
theorem c3_sync_throw_counterexample :
    retrier_run (α := Unit) 3 10 false (fun _ => 0) (fun _ => TaskStep.throws "boom") 1
      = ([.invoked 1], .failure "boom")
    ∧ count_invocations ((retrier_run (α := Unit) 3 10 false (fun _ => 0)
        (fun _ => TaskStep.rejects "boom") 1).1) = 3
    ∧ retrier_run (α := Unit) 3 10 false (fun _ => 0) (fun _ => TaskStep.throws "boom") 1
      ≠ retrier_run (α := Unit) 3 10 false (fun _ => 0) (fun _ => TaskStep.rejects "boom") 1 := by
  have hthrow : retrier_run (α := Unit) 3 10 false (fun _ => (0 : ℚ))
      (fun _ => TaskStep.throws "boom") 1 = ([.invoked 1], .failure "boom") := by
    rw [retrier_run]
  have hrej : retrier_run (α := Unit) 3 10 false (fun _ => (0 : ℚ))
      (fun _ => TaskStep.rejects "boom") 1
      = (fail_trace 10 false (fun _ => 0) 1 2, .failure "boom") :=
    retrier_run_rejects_eq 10 false (fun _ => 0) (fun _ => "boom") 2 1 3 (by omega) (by omega)
  refine ⟨hthrow, ?_, ?_⟩
  · rw [hrej]
    exact count_invocations_fail_trace 10 false (fun _ => 0) 2 1
  · intro heq
    rw [hthrow, hrej] at heq
    have hlen := congrArg (fun p => p.1.length) heq
    simp [fail_trace] at hlen

/-- C3 amended: a task whose first invocation throws synchronously bypasses
the retry path entirely — whatever the retry options and however many retries
are configured, the retryable function makes exactly one invocation, performs
no backoff wait, and rejects with the thrown error unchanged. -/
theorem c3_sync_throw_propagates_immediately (r : ℕ) (s : ℚ) (j : Bool)
    (rand : ℕ → ℚ) (task : JsTask α ε) (e : ε) (h : task 0 = TaskStep.throws e) :
    retrier_run r s j rand task 1 = ([.invoked 1], .failure e) := by
  rw [retrier_run]
  simp [h]

/-- C3 witness: a task throwing `"x"` under the direct defaults
(`retry_times = 5`) is invoked once and its error propagates at once. -/
theorem c3_sync_throw_propagates_immediately_witness :
    retrier_run (α := Unit) 5 10 true (fun _ => 0) (fun _ => TaskStep.throws "x") 1
      = ([.invoked 1], .failure "x") :=
  c3_sync_throw_propagates_immediately 5 10 true (fun _ => 0)
    (fun _ => TaskStep.throws "x") "x" rfl

/-- C4: when a task fails on every invocation (with per-invocation failure
reasons `err 0, err 1, …` from an arbitrary type), the retryable function
rejects with exactly the reason produced by the last invocation it made —
never wrapped or transformed — and the number of invocations is `max 1 r`. -/
theorem c4_failure_propagates_unchanged (r : ℕ) (s : ℚ) (j : Bool)
    (rand : ℕ → ℚ) (err : ℕ → ε) :
    (retrier_run (α := α) r s j rand (fun n => TaskStep.rejects (err n)) 1).2
      = .failure (err (max 1 r - 1))
    ∧ count_invocations ((retrier_run (α := α) r s j rand
        (fun n => TaskStep.rejects (err n)) 1).1) = max 1 r := by
  have h : retrier_run (α := α) r s j rand (fun n => TaskStep.rejects (err n)) 1
      = (fail_trace s j rand 1 (r - 1), .failure (err (1 - 1 + (r - 1)))) :=
    retrier_run_rejects_eq s j rand err (r - 1) 1 r (by omega) (by omega)
  rw [h]
  constructor
  · show Outcome.failure (err (1 - 1 + (r - 1))) = Outcome.failure (err (max 1 r - 1))
    have hidx : 1 - 1 + (r - 1) = max 1 r - 1 := by omega
    rw [hidx]
  · rw [count_invocations_fail_trace]
    omega

/-- C5 counterexample: the claim asserts that when the timer fires first with
`throw_on_timeout = true` the guard fails with a Timeout error of a distinct
kind, distinguishable from the operation's own failure.  On the code
`setTimeout( rej, ... )` invokes the rejection callback with no argument, so
the guard rejects with `undefined` — exactly the outcome of an operation that
itself rejects with `undefined` and settles first, so the two cases are
indistinguishable to the caller. -/
theorem c5_timeout_not_distinct_counterexample :
    promise_timeout (.success (.num 1)) true 10 true = .failure .undef
    ∧ promise_timeout (.failure .undef) false 10 true = .failure .undef
    ∧ promise_timeout (.success (.num 1)) true 10 true
      = promise_timeout (.failure .undef) false 10 true := by
  exact ⟨rfl, rfl, rfl⟩

/-- C5 amended: when the timer fires first, the guard rejects with
`undefined` if `throw_on_timeout` is true (no distinct Timeout error value),
and resolves with the sentinel string `'timed out'` — independent of the
operation's eventual value — if `throw_on_timeout` is false; when the
operation settles first its outcome propagates unchanged. -/
theorem c5_timeout_outcomes (op : Outcome JsValue JsValue) (ms : ℚ) :
    promise_timeout op true ms true = .failure .undef
    ∧ promise_timeout op true ms false = .success (.str "timed out")
    ∧ promise_timeout op false ms true = op
    ∧ promise_timeout op false ms false = op := by
  exact ⟨rfl, rfl, rfl, rfl⟩

/-- On an array whose elements are all functions, `throttle_and_retry`
passes validation and hands the wrapped outcomes to the batch executor. -/
theorem throttle_and_retry_funcs (tasks : List (JsTask α ε)) (a : ThrottleArgs)
    (rand : ℕ → ℕ → ℚ) :
    throttle_and_retry (.array (tasks.map JsElem.func)) (some a) rand
      = .ok (throttle_all (resolve_throttle_args a).fail_fast (wrapped_outcomes a rand tasks)) := by
  simp [throttle_and_retry, array_or_default, as_task_array, elems_to_tasks_map_func]

/-- C6: with `fail_fast = true`, the first task of the batch whose retried
outcome is a failure ends the batch: exactly the tasks up to and including it
are admitted (later tasks are never started) and the batch fails with that
task's own failure.  With `fail_fast = false`, every task is admitted and the
batch resolves with the positionally aligned outcome list, failures
included. -/
theorem c6_fail_fast_semantics (tasks : List (JsTask α ε)) (a : ThrottleArgs)
    (rand : ℕ → ℕ → ℚ) :
    ((resolve_throttle_args a).fail_fast = true →
      ∀ (i : ℕ) (e : ε), first_failure (wrapped_outcomes a rand tasks) = some (i, e) →
        throttle_and_retry (.array (tasks.map JsElem.func)) (some a) rand
          = .ok (i + 1, .failure e)
        ∧ i + 1 ≤ tasks.length)
    ∧ ((resolve_throttle_args a).fail_fast = false →
      throttle_and_retry (.array (tasks.map JsElem.func)) (some a) rand
        = .ok (tasks.length, .success (wrapped_outcomes a rand tasks))) := by
  have hlen : (wrapped_outcomes a rand tasks).length = tasks.length :=
    map_with_index_length _ tasks 0
  constructor
  · intro hff i e hfirst
    obtain ⟨h1, h2⟩ := throttle_all_ff_failure (wrapped_outcomes a rand tasks) i e hfirst
    constructor
    · rw [throttle_and_retry_funcs, hff]
      simp [throttle_all, h1]
    · omega
  · intro hff
    rw [throttle_and_retry_funcs, hff]
    simp [throttle_all, hlen]

/-- A task that succeeds on every invocation, for concrete batch scenarios. -/
def ok_task : JsTask Unit String := fun _ => TaskStep.resolves ()

/-- A task that rejects on every invocation, for concrete batch scenarios. -/
def bad_task : JsTask Unit String := fun _ => TaskStep.rejects "task 2 failed"

/-- One call of `ok_task` wrapped with the options `⟨2, 1, false⟩`. -/
theorem ok_task_run :
    retryable_call ⟨2, 1, false⟩ (fun _ => 0) ok_task
      = ([.invoked 1], .success (some ())) := by
  show retrier_run 2 1 false (fun _ => 0) ok_task 1 = _
  rw [retrier_run]
  rfl

/-- One call of `bad_task` wrapped with the options `⟨2, 1, false⟩`: two
attempts, then the failure surfaces. -/
theorem bad_task_run :
    retryable_call ⟨2, 1, false⟩ (fun _ => 0) bad_task
      = (fail_trace 1 false (fun _ => 0) 1 1, .failure "task 2 failed") := by
  show retrier_run 2 1 false (fun _ => 0) bad_task 1 = _
  exact retrier_run_rejects_eq 1 false (fun _ => 0) (fun _ => "task 2 failed") 1 1 2
    (by omega) (by omega)

/-- C6 witness: the spec's fail-fast scenario `[ok, fail, ok]` with
`retry_times = 2`, `max_parallel = 1`, `fail_fast = true`: task 1 succeeds,
task 2 fails after its retries, the batch fails with task 2's error, and only
two of the three tasks are ever admitted. -/
theorem c6_fail_fast_semantics_witness :
    throttle_and_retry (.array ([ok_task, bad_task, ok_task].map JsElem.func))
        (some ⟨some 1, some 2, some 1, some false, some true⟩) (fun _ _ => 0)
      = .ok (2, .failure "task 2 failed")
    ∧ 1 + 1 ≤ ([ok_task, bad_task, ok_task] : List (JsTask Unit String)).length := by
  have hcfg : throttle_embedded_retry ⟨some 1, some 2, some 1, some false, some true⟩
      = ⟨2, 1, false⟩ := rfl
  have hwrapped : wrapped_outcomes ⟨some 1, some 2, some 1, some false, some true⟩
      (fun _ _ => 0) [ok_task, bad_task, ok_task]
      = [.success (some ()), .failure "task 2 failed", .success (some ())] := by
    simp only [wrapped_outcomes, map_with_index, hcfg]
    rw [ok_task_run, bad_task_run]
  have hfirst : first_failure (wrapped_outcomes
      ⟨some 1, some 2, some 1, some false, some true⟩ (fun _ _ => 0)
      [ok_task, bad_task, ok_task]) = some (1, "task 2 failed") := by
    rw [hwrapped]
    rfl
  have hmain := (c6_fail_fast_semantics [ok_task, bad_task, ok_task]
    ⟨some 1, some 2, some 1, some false, some true⟩ (fun _ _ => 0)).1 rfl 1
    "task 2 failed" hfirst
  exact ⟨hmain.1, hmain.2⟩

/-- C7 counterexample: the claim demands a precondition failure for *every*
input that is not an array of functions.  An omitted/`undefined` first
argument is not an array of functions, yet the `async_function_array = []`
default parameter replaces it with the empty array and the call succeeds
with an empty batch instead of failing. -/
theorem c7_undefined_input_counterexample :
    throttle_and_retry (α := Unit) (ε := Unit) .undef (some { }) (fun _ _ => 0)
      = .ok (0, .success []) := by
  rfl

/-- C7 amended: for every *defined* input — a non-array value, or an array
one of whose elements is not a function — `throttle_and_retry` fails with
`Error('async_function_array must be an array of functions')` before any task
is wrapped or invoked; an array of functions never triggers this precondition
error; and an omitted/`undefined` input is replaced by the empty array and
the call resolves with an empty batch. -/
theorem c7_precondition_validated (xs : List (JsElem α ε)) (a : ThrottleArgs)
    (rand : ℕ → ℕ → ℚ) :
    (xs.all JsElem.is_function = false →
      throttle_and_retry (.array xs) (some a) rand
        = .error (.error "async_function_array must be an array of functions"))
    ∧ throttle_and_retry (α := α) (ε := ε) .nonarray (some a) rand
        = .error (.error "async_function_array must be an array of functions")
    ∧ (xs.all JsElem.is_function = true →
      ∀ msg : String, throttle_and_retry (.array xs) (some a) rand ≠ .error (.error msg))
    ∧ throttle_and_retry (α := α) (ε := ε) .undef (some a) rand = .ok (0, .success []) := by
  refine ⟨?_, rfl, ?_, ?_⟩
  · intro h
    have hnone : elems_to_tasks xs = none := (elems_to_tasks_none_iff xs).2 h
    simp [throttle_and_retry, array_or_default, as_task_array, hnone]
  · intro h msg
    cases hts : elems_to_tasks xs with
    | none =>
      have := (elems_to_tasks_none_iff xs).1 hts
      rw [this] at h
      cases h
    | some ts =>
      simp [throttle_and_retry, array_or_default, as_task_array, hts]
  · show throttle_and_retry (.array []) (some a) rand = .ok (0, .success [])
    have h0 : throttle_and_retry (α := α) (ε := ε) (.array []) (some a) rand
        = .ok (throttle_all (resolve_throttle_args a).fail_fast []) :=
      throttle_and_retry_funcs [] a rand
    rw [h0]
    cases hb : (resolve_throttle_args a).fail_fast <;> simp [throttle_all, throttle_all_ff]

/-- C7 witness: an array containing a non-function and a bare non-array both
fail with the descriptive error, while an array of functions does not. -/
theorem c7_precondition_validated_witness :
    throttle_and_retry (α := Unit) (ε := Unit) (.array [JsElem.nonfunc]) (some { })
        (fun _ _ => 0)
      = .error (.error "async_function_array must be an array of functions")
    ∧ throttle_and_retry (α := Unit) (ε := Unit) .nonarray (some { }) (fun _ _ => 0)
      = .error (.error "async_function_array must be an array of functions")
    ∧ throttle_and_retry (α := Unit) (ε := Unit) (.array []) (some { }) (fun _ _ => 0)
      ≠ .error (.error "async_function_array must be an array of functions") := by
  have h := c7_precondition_validated (α := Unit) (ε := Unit) [JsElem.nonfunc] { }
    (fun _ _ => 0)
  have h2 := c7_precondition_validated (α := Unit) (ε := Unit) [] { } (fun _ _ => 0)
  exact ⟨h.1 rfl, h.2.1,
    h2.2.2.1 rfl "async_function_array must be an array of functions"⟩

/-- C8: whenever `throttle_and_retry` resolves a batch of `N` tasks, the
resulting list has length exactly `N`, its entry at index `i` is the retried
outcome of input task `i` (regardless of the modelled completion order), and
the empty batch resolves to the empty result. -/
theorem c8_batch_result_alignment (tasks : List (JsTask α ε)) (a : ThrottleArgs)
    (rand : ℕ → ℕ → ℚ) (n : ℕ) (l : List (Outcome (Option α) ε)) :
    (throttle_and_retry (.array (tasks.map JsElem.func)) (some a) rand
        = .ok (n, .success l) →
      l = wrapped_outcomes a rand tasks
      ∧ l.length = tasks.length
      ∧ ∀ i : ℕ, l[i]? = (tasks[i]?).map
          (fun task => (retryable_call (throttle_embedded_retry a) (rand i) task).2))
    ∧ throttle_and_retry (α := α) (ε := ε) (.array []) (some a) rand
        = .ok (0, .success []) := by
  have hlen : (wrapped_outcomes a rand tasks).length = tasks.length :=
    map_with_index_length _ tasks 0
  constructor
  · intro h
    rw [throttle_and_retry_funcs] at h
    have hx : throttle_all (resolve_throttle_args a).fail_fast (wrapped_outcomes a rand tasks)
        = (n, .success l) := Except.ok.inj h
    have hl : l = wrapped_outcomes a rand tasks := by
      cases hb : (resolve_throttle_args a).fail_fast
      · rw [hb] at hx
        simp only [throttle_all, Bool.false_eq_true, if_false] at hx
        have h2 := congrArg Prod.snd hx
        simp only [Outcome.success.injEq] at h2
        exact h2.symm
      · rw [hb] at hx
        simp only [throttle_all, if_true] at hx
        exact (throttle_all_ff_success _ n l hx).1
    refine ⟨hl, ?_, ?_⟩
    · rw [hl]
      exact hlen
    · intro i
      rw [hl]
      show (map_with_index _ 0 tasks)[i]? = _
      rw [map_with_index_getElem]
      simp only [Nat.zero_add]
  · have h0 : throttle_and_retry (α := α) (ε := ε) (.array []) (some a) rand
        = .ok (throttle_all (resolve_throttle_args a).fail_fast []) :=
      throttle_and_retry_funcs [] a rand
    rw [h0]
    cases hb : (resolve_throttle_args a).fail_fast <;> simp [throttle_all, throttle_all_ff]

/-- C8 witness: the continue-on-error batch `[ok, bad]` resolves with the
aligned outcome list `[success, failure]`. -/
theorem c8_batch_result_alignment_witness :
    ([.success (some ()), .failure "task 2 failed"] : List (Outcome (Option Unit) String))
      = wrapped_outcomes ⟨some 1, some 2, some 1, some false, some false⟩
          (fun _ _ => 0) [ok_task, bad_task] := by
  have hcfg : throttle_embedded_retry ⟨some 1, some 2, some 1, some false, some false⟩
      = ⟨2, 1, false⟩ := rfl
  have hwrapped : wrapped_outcomes ⟨some 1, some 2, some 1, some false, some false⟩
      (fun _ _ => 0) [ok_task, bad_task]
      = [.success (some ()), .failure "task 2 failed"] := by
    simp only [wrapped_outcomes, map_with_index, hcfg]
    rw [ok_task_run, bad_task_run]
  have h : throttle_and_retry (.array ([ok_task, bad_task].map JsElem.func))
      (some ⟨some 1, some 2, some 1, some false, some false⟩) (fun _ _ => 0)
      = .ok (2, .success [.success (some ()), .failure "task 2 failed"]) := by
    rw [throttle_and_retry_funcs, hwrapped]
    rfl
  have hmain := (c8_batch_result_alignment [ok_task, bad_task]
    ⟨some 1, some 2, some 1, some false, some false⟩ (fun _ _ => 0) 2
    [.success (some ()), .failure "task 2 failed"]).1 h
  exact hmain.1

/-- C9 counterexample: the claim asserts that the RetryPolicy the Throttler
embeds defaults to `retry_times = 5`, `base_cooldown_seconds = 10`, jitter
enabled — the same as a directly constructed Retrier.  On the code the
throttler's own destructuring defaults are `retry_times = 2`,
`cooldown_in_s = 5`, `cooldown_entropy = false`, so with all options omitted
the embedded retry options differ from the direct ones. -/
theorem c9_embedded_defaults_counterexample :
    resolve_retry_args { } = ⟨5, 10, true⟩
    ∧ throttle_embedded_retry { } = ⟨2, 5, false⟩
    ∧ throttle_embedded_retry { } ≠ resolve_retry_args { } := by
  refine ⟨rfl, rfl, ?_⟩
  intro h
  have h2 := congrArg RetryConfig.retry_times h
  simp [resolve_retry_args, throttle_embedded_retry, resolve_throttle_args] at h2

/-- C9 amended: with all options omitted, a directly constructed retryable
uses `retry_times = 5`, `cooldown_in_s = 10`, jitter enabled; the throttler
defaults to `max_parallel = 2` and `fail_fast = true`, and the retry options
it embeds (uniformly, for every task of a batch) default to
`retry_times = 2`, `cooldown_in_s = 5`, jitter disabled. -/
theorem c9_option_defaults :
    resolve_retry_args { } = ⟨5, 10, true⟩
    ∧ resolve_throttle_args { } = ⟨2, 2, 5, false, true⟩
    ∧ throttle_embedded_retry { } = ⟨2, 5, false⟩ :=
  ⟨rfl, rfl, rfl⟩

/-- C10: calling `make_retryable` or `throttle_and_retry` without the options
record fails with the destructuring `TypeError` even though every individual
option field has a default (an empty record succeeds), while
`promise_timeout` supplies defaults (`60000`, `true`) for all of its optional
arguments and cannot fail at its interface. -/
theorem c10_options_record_mandatory :
    (∀ task : JsTask Unit Unit, make_retryable task none = .error .type_error)
    ∧ (∀ (arr : JsArg Unit Unit) (rand : ℕ → ℕ → ℚ),
        throttle_and_retry arr none rand = .error .type_error)
    ∧ (∀ task : JsTask Unit Unit, ∃ f, make_retryable task (some { }) = .ok f)
    ∧ (∃ v, throttle_and_retry (α := Unit) (ε := Unit) (.array []) (some { })
        (fun _ _ => 0) = .ok v)
    ∧ resolve_timeout_args none none = (60000, true)
    ∧ (∀ (op : Outcome JsValue JsValue) (tf : Bool),
        promise_timeout_call op tf none none = promise_timeout op tf 60000 true) := by
  exact ⟨fun _ => rfl, fun _ _ => rfl, fun t => ⟨_, rfl⟩, ⟨_, rfl⟩, rfl, fun _ _ => rfl⟩
